import Mathlib

set_option maxHeartbeats 1000000

/-! Shallow embedding of the redislib client core (src/redislib): the
connection pool of connection.py, the pack_cmd wire encoder, the
Connection handshake state machine, the scan iterator of scanner.py and
the transactional session of api/redis.py, together with theorems about
the properties the specification states for them. -/

/-! ## Pool (connection.py, class Pool) -/

/-- Errors raised by pool operations: ClosedPoolError from acquire and
release on a closed pool, the KeyError from set.pop on an empty set, and
the AssertionError from the incompleted-release check in aclose. -/
inductive PoolErr
  | closedPool
  | keyError
  | assertionFailed
deriving DecidableEq

/-- State of a Pool. Connections are identified by creation order of the
factory. idle is the _conns set, acquired is _acquired_num (a Python int,
free to go negative), created counts factory-created connections, which
equals the number of AsyncExitStack exit callbacks, and closed is the
_closed event. held is the ghost set of connections granted to a caller
and not yet the subject of a release; the code does not store it, it only
annotates the transitions. -/
structure PoolState where
  maxNum : Int
  idle : Finset Nat
  held : Finset Nat
  acquired : Int
  created : Nat
  closed : Bool
deriving DecidableEq

deriving instance DecidableEq for Except

/-- A fresh Pool(factory, max_num): no connections, counter zero, open. -/
def initPool (maxNum : Int) : PoolState :=
  { maxNum := maxNum, idle := ∅, held := ∅, acquired := 0, created := 0,
    closed := false }

/-- Pool.release (connection.py:195-208): raises ClosedPoolError when the
pool is closed; releasing an already idle connection is a no-op; otherwise
the connection joins the idle set and the acquired counter is decremented.
There is no check that the connection was ever created by or acquired from
this pool. -/
def Pool.release (s : PoolState) (c : Nat) : Except PoolErr PoolState :=
  if s.closed then .error .closedPool
  else if c ∈ s.idle then .ok s
  else .ok { s with
    idle := insert c s.idle
    held := s.held.erase c
    acquired := s.acquired - 1 }

/-- Outcome of the fast path of Pool.acquire: either a connection is
granted, or the pool is exhausted and the caller must block on the
condition until a release signals it. -/
inductive AcqOutcome
  | granted (s : PoolState) (c : Nat)
  | mustWait
deriving DecidableEq

/-- Pool.acquire fast path (connection.py:153-178): raise ClosedPoolError
if the pool is closed, otherwise under the lock pop an idle connection
(set.pop returns an arbitrary element; this embedding fixes the choice to
the minimum), else invoke the factory for a fresh connection when capacity
remains, else fall through to waiting on the condition. -/
def Pool.acquireFast (s : PoolState) : Except PoolErr AcqOutcome :=
  if s.closed then .error .closedPool
  else if h : s.idle.Nonempty then
    let c := s.idle.min' h
    .ok (.granted { s with
      idle := s.idle.erase c
      held := insert c s.held
      acquired := s.acquired + 1 } c)
  else if s.acquired < s.maxNum then
    .ok (.granted { s with
      held := insert s.created s.held
      acquired := s.acquired + 1
      created := s.created + 1 } s.created)
  else .ok .mustWait

/-- Pool.acquire slow path after the condition wait (connection.py:181-185):
pop an idle connection and increment the counter. The closed event is not
re-checked here, and set.pop on an empty set raises KeyError. -/
def Pool.acquireAfterWait (s : PoolState) : Except PoolErr (PoolState × Nat) :=
  if h : s.idle.Nonempty then
    let c := s.idle.min' h
    .ok ({ s with
      idle := s.idle.erase c
      held := insert c s.held
      acquired := s.acquired + 1 }, c)
  else .error .keyError

/-- Pool.aclose (connection.py:213-224): a no-op when already closed;
otherwise asserts that the number of exit callbacks, one per created
connection, equals the number of idle connections, then sets the closed
event and closes the idle sockets, which does not change the counters. -/
def Pool.aclose (s : PoolState) : Except PoolErr PoolState :=
  if s.closed then .ok s
  else if s.created = s.idle.card then .ok { s with closed := true }
  else .error .assertionFailed

/-- One state transition of the pool: the effect of one acquire (fast idle
take, fresh creation, or slow-path take after a wait), one successful
release, or one successful aclose, exactly as the code mutates the shared
state under the lock. The idle take is stated for an arbitrary member of
the idle set, of which the minimum choice in Pool.acquireFast is one
instance. -/
inductive PoolStep : PoolState → PoolState → Prop
  | acquireIdle (s : PoolState) (c : Nat) (hcl : s.closed = false)
      (hc : c ∈ s.idle) :
      PoolStep s { s with
        idle := s.idle.erase c
        held := insert c s.held
        acquired := s.acquired + 1 }
  | acquireNew (s : PoolState) (hcl : s.closed = false) (hidle : s.idle = ∅)
      (hcap : s.acquired < s.maxNum) :
      PoolStep s { s with
        held := insert s.created s.held
        acquired := s.acquired + 1
        created := s.created + 1 }
  | acquireWait (s : PoolState) (c : Nat) (hc : c ∈ s.idle) :
      PoolStep s { s with
        idle := s.idle.erase c
        held := insert c s.held
        acquired := s.acquired + 1 }
  | releaseStep (s s' : PoolState) (c : Nat) (h : Pool.release s c = .ok s') :
      PoolStep s s'
  | closeStep (s s' : PoolState) (h : Pool.aclose s = .ok s') :
      PoolStep s s'

/-- States reachable from a fresh pool by any interleaving of acquire,
release and aclose effects. -/
def PoolReachable (maxNum : Int) (s : PoolState) : Prop :=
  Relation.ReflTransGen PoolStep (initPool maxNum) s

/-- The pool invariant of the spec data model: occupancy bounded by
max_num, the acquired counter bounded by max_num, and no connection both
idle and granted. -/
def PoolInv (s : PoolState) : Prop :=
  s.acquired + (s.idle.card : Int) ≤ s.maxNum ∧
  s.acquired ≤ s.maxNum ∧
  ∀ c, c ∈ s.idle → c ∉ s.held

lemma poolInv_preserved {s s' : PoolState} (hinv : PoolInv s)
    (hstep : PoolStep s s') : PoolInv s' := by
  obtain ⟨h1, h2, h3⟩ := hinv
  cases hstep with
  | acquireIdle c hcl hc =>
    have hcard := Finset.card_erase_of_mem hc
    have hpos : 0 < s.idle.card := Finset.card_pos.mpr ⟨c, hc⟩
    refine ⟨?_, ?_, ?_⟩
    · dsimp only
      rw [hcard]
      omega
    · dsimp only
      omega
    · dsimp only
      intro d hd
      simp only [Finset.mem_erase] at hd
      simp only [Finset.mem_insert, not_or]
      exact ⟨hd.1, h3 d hd.2⟩
  | acquireNew hcl hidle hcap =>
    refine ⟨?_, ?_, ?_⟩
    · dsimp only
      rw [hidle]
      simp only [Finset.card_empty, Nat.cast_zero, add_zero]
      omega
    · dsimp only
      omega
    · dsimp only
      intro d hd
      rw [hidle] at hd
      exact absurd hd (Finset.not_mem_empty d)
  | acquireWait c hc =>
    have hcard := Finset.card_erase_of_mem hc
    have hpos : 0 < s.idle.card := Finset.card_pos.mpr ⟨c, hc⟩
    refine ⟨?_, ?_, ?_⟩
    · dsimp only
      rw [hcard]
      omega
    · dsimp only
      omega
    · dsimp only
      intro d hd
      simp only [Finset.mem_erase] at hd
      simp only [Finset.mem_insert, not_or]
      exact ⟨hd.1, h3 d hd.2⟩
  | releaseStep s' c h =>
    simp only [Pool.release] at h
    split at h
    · exact Except.noConfusion h
    · split at h
      · injection h with h
        subst h
        exact ⟨h1, h2, h3⟩
      · injection h with h
        subst h
        rename_i hidle
        have hcard := Finset.card_insert_of_not_mem hidle
        refine ⟨?_, ?_, ?_⟩
        · dsimp only
          rw [hcard]
          push_cast
          omega
        · dsimp only
          omega
        · dsimp only
          intro d hd
          rcases Finset.mem_insert.mp hd with hdc | hdi
          · subst hdc
            exact Finset.not_mem_erase d s.held
          · intro hmem
            exact h3 d hdi (Finset.mem_of_mem_erase hmem)
  | closeStep s' h =>
    simp only [Pool.aclose] at h
    split at h
    · injection h with h
      subst h
      exact ⟨h1, h2, h3⟩
    · split at h
      · injection h with h
        subst h
        exact ⟨h1, h2, h3⟩
      · exact Except.noConfusion h

/-- C1: along every sequence of Pool.acquire and Pool.release operations
from a fresh pool (aclose included), at every instant the acquired counter
plus the size of the idle set is at most max_num, the acquired counter is
at most max_num, and no connection is simultaneously in the idle set and
granted to a caller. -/
theorem pool_invariants_reachable (maxNum : Int) (s : PoolState)
    (hmax : 0 ≤ maxNum) (hreach : PoolReachable maxNum s) : PoolInv s := by
  induction hreach with
  | refl =>
    refine ⟨?_, ?_, ?_⟩
    · simpa [initPool] using hmax
    · simpa [initPool] using hmax
    · intro c hc
      simp [initPool] at hc
  | tail hab hbc ih => exact poolInv_preserved ih hbc

/-- C1 witness: the invariant instantiated on a fresh pool of size 2. -/
theorem pool_invariants_reachable_witness : PoolInv (initPool 2) :=
  pool_invariants_reachable 2 (initPool 2) (by decide) Relation.ReflTransGen.refl

/-- Pool state reached from a fresh pool of size 1 by acquiring the fresh
connection number 0. -/
def poolAfterAcquire : PoolState :=
  { maxNum := 1, idle := ∅, held := {0}, acquired := 1, created := 1,
    closed := false }

/-- Pool state after a caller additionally releases the foreign connection
7 while connection 0 is still held: the incompleted-release assertion of
aclose now passes even though 0 was never returned. -/
def poolBeforeClose : PoolState :=
  { maxNum := 1, idle := {7}, held := {0}, acquired := 0, created := 1,
    closed := false }

/-- The previous state once aclose has set the closed event. -/
def poolClosed : PoolState :=
  { maxNum := 1, idle := {7}, held := {0}, acquired := 0, created := 1,
    closed := true }

/-- C2 counterexample: the closed pool state above is reachable, connection
0 was acquired before the close and is still held, and yet releasing it
raises ClosedPoolError instead of completing without error. -/
theorem pool_release_after_close_raises_cex :
    PoolReachable 1 poolClosed ∧ (0 : Nat) ∈ poolClosed.held ∧
    Pool.release poolClosed 0 = .error .closedPool := by
  refine ⟨?_, by decide, by decide⟩
  have h1 : PoolStep (initPool 1) poolAfterAcquire := by
    have e : ({ initPool 1 with
        held := insert (initPool 1).created (initPool 1).held
        acquired := (initPool 1).acquired + 1
        created := (initPool 1).created + 1 } : PoolState) = poolAfterAcquire := by
      decide
    exact e ▸ PoolStep.acquireNew (initPool 1) rfl rfl (by decide)
  have h2 : PoolStep poolAfterAcquire poolBeforeClose :=
    PoolStep.releaseStep poolAfterAcquire poolBeforeClose 7 (by decide)
  have h3 : PoolStep poolBeforeClose poolClosed :=
    PoolStep.closeStep poolBeforeClose poolClosed (by decide)
  exact Relation.ReflTransGen.tail
    (Relation.ReflTransGen.tail (Relation.ReflTransGen.single h1) h2) h3

/-- C2 (amended): once the pool is closed, release does not complete
silently: it fails with ClosedPoolError, exactly as acquire does; the code
instead expects every acquired connection to be back in the pool before
aclose is called. -/
theorem pool_closed_release_raises (s : PoolState) (c : Nat)
    (h : s.closed = true) :
    Pool.release s c = .error .closedPool ∧
    Pool.acquireFast s = .error .closedPool := by
  constructor
  · simp [Pool.release, h]
  · simp [Pool.acquireFast, h]

/-- C2 witness: the amended statement applied to the reachable closed pool
state. -/
theorem pool_closed_release_raises_witness :
    Pool.release poolClosed 0 = .error .closedPool ∧
    Pool.acquireFast poolClosed = .error .closedPool :=
  pool_closed_release_raises poolClosed 0 (by decide)

/-- Pool state with the single created connection back in the idle set:
reached by releasing connection 0 from poolAfterAcquire. A second caller
that found the pool exhausted is blocked on the condition at this point. -/
def poolIdleOpen : PoolState :=
  { maxNum := 1, idle := {0}, held := ∅, acquired := 0, created := 1,
    closed := false }

/-- The previous state after aclose: the assertion passes (one created
connection, one idle), the closed event is set, and the blocked caller has
not yet resumed. -/
def poolIdleClosed : PoolState :=
  { maxNum := 1, idle := {0}, held := ∅, acquired := 0, created := 1,
    closed := true }

/-- C4 counterexample: the pool is closed while a caller is blocked in the
wait-for-release slow path, yet when the caller resumes it is granted the
idle connection instead of failing with ClosedPoolError, because the slow
path never re-checks the closed event. -/
theorem pool_acquire_wait_ignores_close_cex :
    PoolReachable 1 poolIdleClosed ∧ poolIdleClosed.closed = true ∧
    Pool.acquireAfterWait poolIdleClosed =
      .ok ({ maxNum := 1, idle := ∅, held := {0}, acquired := 1,
             created := 1, closed := true }, 0) ∧
    Pool.acquireAfterWait poolIdleClosed ≠ .error .closedPool := by
  refine ⟨?_, by decide, by decide, by decide⟩
  have h1 : PoolStep (initPool 1) poolAfterAcquire := by
    have e : ({ initPool 1 with
        held := insert (initPool 1).created (initPool 1).held
        acquired := (initPool 1).acquired + 1
        created := (initPool 1).created + 1 } : PoolState) = poolAfterAcquire := by
      decide
    exact e ▸ PoolStep.acquireNew (initPool 1) rfl rfl (by decide)
  have h2 : PoolStep poolAfterAcquire poolIdleOpen :=
    PoolStep.releaseStep poolAfterAcquire poolIdleOpen 0 (by decide)
  have h3 : PoolStep poolIdleOpen poolIdleClosed :=
    PoolStep.closeStep poolIdleOpen poolIdleClosed (by decide)
  exact Relation.ReflTransGen.tail
    (Relation.ReflTransGen.tail (Relation.ReflTransGen.single h1) h2) h3

/-- C4 (amended): acquire on a pool that was closed before the call fails
with ClosedPoolError; a caller in the wait-for-release slow path does
retry the idle-take path after being woken, but without re-checking the
closed event: it is granted an idle connection whenever one is present,
even if the pool was closed during the wait, and fails with the KeyError
of set.pop, not ClosedPoolError, when the idle set is empty. -/
theorem pool_acquire_closed_checks (s : PoolState) :
    (s.closed = true → Pool.acquireFast s = .error .closedPool) ∧
    (s.idle.Nonempty → ∃ s' c, Pool.acquireAfterWait s = .ok (s', c)) ∧
    (s.idle = ∅ → Pool.acquireAfterWait s = .error .keyError) := by
  refine ⟨?_, ?_, ?_⟩
  · intro h
    simp [Pool.acquireFast, h]
  · intro h
    rw [Pool.acquireAfterWait, dif_pos h]
    exact ⟨_, _, rfl⟩
  · intro h
    rw [Pool.acquireAfterWait, dif_neg]
    rw [h]
    exact Finset.not_nonempty_empty

/-- C4 witness: the amended statement applied to the closed pool with an
idle connection and to a fresh empty pool. -/
theorem pool_acquire_closed_checks_witness :
    Pool.acquireFast poolIdleClosed = .error .closedPool ∧
    (∃ s' c, Pool.acquireAfterWait poolIdleClosed = .ok (s', c)) ∧
    Pool.acquireAfterWait (initPool 1) = .error .keyError :=
  ⟨(pool_acquire_closed_checks poolIdleClosed).1 (by decide),
   (pool_acquire_closed_checks poolIdleClosed).2.1 ⟨0, by decide⟩,
   (pool_acquire_closed_checks (initPool 1)).2.2 (by decide)⟩

/-- C9: Pool.release never verifies that the connection was acquired from
this pool: on an open pool any connection not currently idle is added to
the idle set and the acquired counter is decremented, so releasing a
never-acquired connection into a fresh pool drives the counter to minus
one and puts a connection the pool never created into the idle set. -/
theorem pool_release_unverified :
    (∀ (s : PoolState) (c : Nat), s.closed = false → c ∉ s.idle →
      Pool.release s c = .ok { s with
        idle := insert c s.idle
        held := s.held.erase c
        acquired := s.acquired - 1 }) ∧
    Pool.release (initPool 2) 5 =
      .ok { maxNum := 2, idle := {5}, held := ∅, acquired := -1,
            created := 0, closed := false } := by
  constructor
  · intro s c h1 h2
    simp [Pool.release, h1, h2]
  · decide

/-- C9 witness: the general statement applied to a fresh pool of size 2
and the foreign connection 5. -/
theorem pool_release_unverified_witness :
    Pool.release (initPool 2) 5 =
      .ok { initPool 2 with
        idle := insert 5 (initPool 2).idle
        held := (initPool 2).held.erase 5
        acquired := (initPool 2).acquired - 1 } :=
  pool_release_unverified.1 (initPool 2) 5 rfl (by decide)

/-! ## Wire codec (connection.py, pack_cmd) -/

/-- The CRLF separator bytes used by the wire framing. -/
def CRLF : List UInt8 := [13, 10]

/-- UTF-8 encoding of one character by codepoint arithmetic, matching the
Python encode of a text string. -/
def utf8Char (c : Char) : List UInt8 :=
  let n := c.toNat
  if n < 128 then [UInt8.ofNat n]
  else if n < 2048 then [UInt8.ofNat (192 + n / 64), UInt8.ofNat (128 + n % 64)]
  else if n < 65536 then
    [UInt8.ofNat (224 + n / 4096), UInt8.ofNat (128 + (n / 64) % 64),
     UInt8.ofNat (128 + n % 64)]
  else
    [UInt8.ofNat (240 + n / 262144), UInt8.ofNat (128 + (n / 4096) % 64),
     UInt8.ofNat (128 + (n / 64) % 64), UInt8.ofNat (128 + n % 64)]

/-- Byte encoding of a text string, the Python str.encode in utf-8. -/
def strBytes (s : String) : List UInt8 := (s.data.map utf8Char).flatten

/-- A Python value passed as a command argument (typing.Arg together with
the shapes the encoder can actually receive at runtime). fl is the type of
Python floats, kept abstract together with its str rendering since IEEE
754 text formatting lies outside this embedding; bool is a subclass of int
in Python and therefore matches the numeric isinstance branch; other
stands for a value of any unsupported type, carrying its repr text. -/
inductive PyArg (fl : Type)
  | int (n : Int)
  | bool (b : Bool)
  | float (x : fl)
  | str (s : String)
  | bytes (b : List UInt8)
  | other (r : String)
deriving DecidableEq

variable {fl : Type}

/-- The body bytes computed for one argument by the isinstance chain in
pack_cmd (connection.py:26-34): int and float instances, hence also bool,
via str(arg).encode(); str via utf-8; bytes and bytearray passed through;
anything else raises RuntimeError. Python renders True and False with
their capitalized names. -/
def argBin (flStr : fl → String) : PyArg fl → Except String (List UInt8)
  | .int n => .ok (strBytes (toString n))
  | .bool b => .ok (strBytes (if b then "True" else "False"))
  | .float x => .ok (strBytes (flStr x))
  | .str s => .ok (strBytes s)
  | .bytes b => .ok b
  | .other r => .error ("unknown type for arg: " ++ r)

/-- The bodies of all arguments in order, stopping at the first
unsupported one, exactly as the pack_cmd generator raises lazily. -/
def argBins (flStr : fl → String) : List (PyArg fl) → Except String (List (List UInt8))
  | [] => .ok []
  | a :: as =>
    match argBin flStr a with
    | .error e => .error e
    | .ok b =>
      match argBins flStr as with
      | .error e => .error e
      | .ok bs => .ok (b :: bs)

/-- The dollar length header yielded before a body part in pack_cmd. -/
def lenHeader (b : List UInt8) : List UInt8 :=
  strBytes ("$" ++ toString b.length)

/-- The two generator parts contributed per argument body. -/
def argParts : List (List UInt8) → List (List UInt8)
  | [] => []
  | b :: bs => lenHeader b :: b :: argParts bs

/-- The join of parts with the CRLF separator, as bytes join does. -/
def joinCRLF : List (List UInt8) → List UInt8
  | [] => []
  | [p] => p
  | p :: q :: ps => p ++ CRLF ++ joinCRLF (q :: ps)

/-- pack_cmd (connection.py:15-40): the generator yields the array header
for len(args)+1 elements, the opcode length header and the opcode, then
per argument a length header and the body, and finally an empty part so
that the CRLF join ends with a trailing CRLF. -/
def pack_cmd (flStr : fl → String) (cmd : List UInt8) (args : List (PyArg fl)) :
    Except String (List UInt8) :=
  match argBins flStr args with
  | .error e => .error e
  | .ok bins =>
    .ok (joinCRLF (([strBytes ("*" ++ toString (args.length + 1)),
                     lenHeader cmd, cmd] ++ argParts bins) ++ [[]]))

/-- A length-prefixed bulk element as the spec framing describes it. -/
def bulkElem (b : List UInt8) : List UInt8 :=
  lenHeader b ++ CRLF ++ b ++ CRLF

/-- The framing the spec describes: an array header declaring one more
element than the argument count, one bulk element for the opcode, then one
bulk element per argument body. -/
def specFraming (cmd : List UInt8) (bins : List (List UInt8)) : List UInt8 :=
  strBytes ("*" ++ toString (bins.length + 1)) ++ CRLF ++ bulkElem cmd ++
  (bins.map bulkElem).flatten

/-- The per-argument body the spec describes: numeric arguments through
their decimal text, text through its byte encoding, raw bytes unchanged.
The bool and other shapes are excluded by hypothesis where this is used
for the spec comparison. -/
def specArgBody (flStr : fl → String) : PyArg fl → List UInt8
  | .int n => strBytes (toString n)
  | .bool b => strBytes (if b then "True" else "False")
  | .float x => strBytes (flStr x)
  | .str s => strBytes s
  | .bytes b => b
  | .other _ => []

/-- Does the argument have one of the four types the spec encoding rule
quantifies over? Python bools are excluded here: they are int instances
but not ints. -/
def PyArg.supported : PyArg fl → Bool
  | .int _ => true
  | .float _ => true
  | .str _ => true
  | .bytes _ => true
  | .bool _ => false
  | .other _ => false

/-- Is the argument of a type outside the isinstance chain of pack_cmd? -/
def PyArg.isOther : PyArg fl → Bool
  | .other _ => true
  | _ => false

lemma argBin_eq_specArgBody (flStr : fl → String) (a : PyArg fl)
    (h : a.isOther = false) : argBin flStr a = .ok (specArgBody flStr a) := by
  cases a <;> simp_all [PyArg.isOther, argBin, specArgBody]

lemma argBins_eq_specArgBody (flStr : fl → String) (args : List (PyArg fl))
    (h : ∀ a ∈ args, a.isOther = false) :
    argBins flStr args = .ok (args.map (specArgBody flStr)) := by
  induction args with
  | nil => rfl
  | cons a as ih =>
    have ha := argBin_eq_specArgBody flStr a (h a (by simp))
    have has := ih (fun b hb => h b (by simp [hb]))
    simp [argBins, ha, has]

lemma argBins_error_of_other (flStr : fl → String) (args : List (PyArg fl))
    (h : ∃ a ∈ args, a.isOther = true) :
    ∃ e, argBins flStr args = .error e := by
  induction args with
  | nil => simp at h
  | cons a as ih =>
    by_cases hother : a.isOther = true
    · cases a with
      | other r => exact ⟨"unknown type for arg: " ++ r, by simp [argBins, argBin]⟩
      | int n => simp [PyArg.isOther] at hother
      | bool b => simp [PyArg.isOther] at hother
      | float x => simp [PyArg.isOther] at hother
      | str s => simp [PyArg.isOther] at hother
      | bytes b => simp [PyArg.isOther] at hother
    · obtain ⟨b, hb, hbo⟩ := h
      rcases List.mem_cons.mp hb with hba | hbas
      · exact absurd (hba ▸ hbo) hother
      · obtain ⟨e, he⟩ := ih ⟨b, hbas, hbo⟩
        have ha := argBin_eq_specArgBody flStr a (by simpa using hother)
        exact ⟨e, by simp [argBins, ha, he]⟩

lemma joinCRLF_trailing (ps : List (List UInt8)) :
    joinCRLF (ps ++ [[]]) = (ps.map (fun p => p ++ CRLF)).flatten := by
  induction ps with
  | nil => rfl
  | cons p ps ih =>
    cases ps with
    | nil => simp [joinCRLF]
    | cons q qs =>
      simp only [List.cons_append, joinCRLF, List.append_eq] at ih ⊢
      rw [ih]
      simp

lemma argParts_flat (bins : List (List UInt8)) :
    ((argParts bins).map (fun p => p ++ CRLF)).flatten =
      (bins.map bulkElem).flatten := by
  induction bins with
  | nil => rfl
  | cons b bs ih =>
    simp only [argParts, List.map_cons, List.flatten_cons, bulkElem]
    rw [ih]
    simp [List.append_assoc]

lemma pack_cmd_ok_eq (flStr : fl → String) (cmd : List UInt8)
    (args : List (PyArg fl)) (h : ∀ a ∈ args, a.isOther = false) :
    pack_cmd flStr cmd args =
      .ok (specFraming cmd (args.map (specArgBody flStr))) := by
  simp only [pack_cmd, argBins_eq_specArgBody flStr args h]
  rw [joinCRLF_trailing]
  simp only [List.map_append, List.map_cons, List.map_nil, List.flatten_append,
    List.flatten_cons, List.flatten_nil, argParts_flat, specFraming, bulkElem,
    List.length_map, List.append_nil, List.append_assoc]

/-- C3: for every opcode and every argument list built from the four
supported shapes, pack_cmd produces exactly the array-of-bulk-strings
framing the spec describes, with ints rendered as decimal text, floats as
their str rendering, text utf-8 encoded and raw bytes unchanged; and
whenever any argument has an unsupported type, pack_cmd fails with the
encoding error. -/
theorem pack_cmd_framing (fl : Type) (flStr : fl → String) (cmd : List UInt8)
    (args : List (PyArg fl)) :
    ((∀ a ∈ args, a.supported = true) →
      pack_cmd flStr cmd args =
        .ok (specFraming cmd (args.map (specArgBody flStr)))) ∧
    ((∃ a ∈ args, a.isOther = true) →
      ∃ e, pack_cmd flStr cmd args = .error e) := by
  constructor
  · intro h
    refine pack_cmd_ok_eq flStr cmd args (fun a ha => ?_)
    have := h a ha
    cases a <;> simp_all [PyArg.supported, PyArg.isOther]
  · intro h
    obtain ⟨e, he⟩ := argBins_error_of_other flStr args h
    exact ⟨e, by simp [pack_cmd, he]⟩

/-- C3 witness: the framing statement applied to the opcode SET with one
argument of each supported shape, and the failure statement applied to an
argument list holding a value of an unsupported type. -/
theorem pack_cmd_framing_witness :
    pack_cmd (fun _ : Unit => "3.14") (strBytes "SET")
        [PyArg.int (-2), PyArg.float (), PyArg.str "ab", PyArg.bytes [0, 255]] =
      .ok (specFraming (strBytes "SET")
        ([PyArg.int (-2), PyArg.float (), PyArg.str "ab",
          PyArg.bytes [0, 255]].map (specArgBody (fun _ : Unit => "3.14")))) ∧
    (∃ e, pack_cmd (fun _ : Unit => "3.14") (strBytes "SET")
        [PyArg.str "k", PyArg.other "None"] = .error e) :=
  ⟨(pack_cmd_framing Unit (fun _ => "3.14") (strBytes "SET")
      [PyArg.int (-2), PyArg.float (), PyArg.str "ab", PyArg.bytes [0, 255]]).1
      (by decide),
   (pack_cmd_framing Unit (fun _ => "3.14") (strBytes "SET")
      [PyArg.str "k", PyArg.other "None"]).2
      ⟨PyArg.other "None", by decide, rfl⟩⟩

/-- C10: a Python bool is an int instance, so the encoder takes the
numeric branch and serializes it as the text True or False, four or five
bytes, rather than as a decimal number or an EncodingError. -/
theorem pack_cmd_bool_numeric_branch (fl : Type) (flStr : fl → String)
    (cmd : List UInt8) (b : Bool) :
    argBin flStr (PyArg.bool b) =
      .ok (strBytes (if b then "True" else "False")) ∧
    pack_cmd flStr cmd [PyArg.bool b] =
      .ok (specFraming cmd [strBytes (if b then "True" else "False")]) ∧
    (strBytes "True").length = 4 ∧ (strBytes "False").length = 5 := by
  refine ⟨rfl, ?_, by decide, by decide⟩
  have h := pack_cmd_ok_eq flStr cmd [PyArg.bool b]
    (fun a ha => by simp_all [PyArg.isOther])
  simpa [specArgBody] using h

/-! ## Connection (connection.py, class Connection) -/

/-- Errors a round trip can raise: the RuntimeError of the pre-handshake
stub, an encoding failure propagated from pack_cmd, and the trio
BrokenResourceError raised when the peer closes the stream before a full
reply is decoded. -/
inductive ConnErr
  | notReady
  | encoding (msg : String)
  | brokenResource
deriving DecidableEq

/-- State of one Connection: the _said_hello flag (equivalently, whether
the hello call has rebound round_trip to _round_trip), the log of byte
strings written to the socket, and the scripted replies the external
respy3 reader will decode, one complete reply per round trip. The reply
type is abstract since the decoder is an external collaborator. -/
structure ConnState (ρ : Type) where
  saidHello : Bool
  sent : List (List UInt8)
  replies : List ρ
deriving DecidableEq

variable {ρ : Type}

/-- Connection._round_trip (connection.py:85-109): pack the command, an
unsupported argument raising before anything is sent, then send the bytes
and loop on the reader until one complete reply is produced; an exhausted
reply script models the peer closing the stream, which raises after the
send. -/
def Connection.rawRoundTrip (flStr : fl → String) (c : ConnState ρ)
    (cmd : List UInt8) (args : List (PyArg fl)) :
    Except ConnErr ρ × ConnState ρ :=
  match pack_cmd flStr cmd args with
  | .error e => (.error (.encoding e), c)
  | .ok packed =>
    match c.replies with
    | [] => (.error .brokenResource, { c with sent := c.sent ++ [packed] })
    | r :: rest =>
      (.ok r, { c with sent := c.sent ++ [packed], replies := rest })

/-- Connection.round_trip as dispatched on the instance: before hello the
class-level stub (connection.py:111-113) raises RuntimeError without
touching the socket; after hello the instance attribute set by hello makes
the call reach _round_trip. -/
def Connection.roundTrip (flStr : fl → String) (c : ConnState ρ)
    (cmd : List UInt8) (args : List (PyArg fl)) :
    Except ConnErr ρ × ConnState ρ :=
  if c.saidHello then Connection.rawRoundTrip flStr c cmd args
  else (.error .notReady, c)

/-- Hello options (connection.py, class Hello): protocol version 3 plus
optional credentials and client name, attrs defaults None. -/
structure Hello where
  username : Option String
  password : Option String
  clientname : Option String
deriving DecidableEq

/-- Python truthiness of an optional string: None and the empty string are
falsy. -/
def pyTruthy : Option String → Bool
  | none => false
  | some s => !s.isEmpty

/-- An optional string yielded as a command argument: None is a value of
unsupported type for pack_cmd. -/
def optArg (fl : Type) : Option String → PyArg fl
  | some s => .str s
  | none => .other "None"

/-- Hello.as_args (connection.py:54-64): the protocol version, then AUTH
with the credentials when a username is set, then SETNAME with the client
name when one is set. -/
def Hello.asArgs (fl : Type) (h : Hello) : List (PyArg fl) :=
  [.int 3] ++
  (if pyTruthy h.username then
    [.str "AUTH", optArg fl h.username, optArg fl h.password]
  else []) ++
  (if pyTruthy h.clientname then [.str "SETNAME", optArg fl h.clientname]
  else [])

/-- Connection.hello (connection.py:74-83): a no-op returning None when
_said_hello is already set; otherwise one HELLO round trip, and on success
the flag is set and round_trip is rebound. -/
def Connection.hello (flStr : fl → String) (c : ConnState ρ) (hi : Hello) :
    Except ConnErr (Option ρ) × ConnState ρ :=
  if c.saidHello then (.ok none, c)
  else
    match Connection.rawRoundTrip flStr c (strBytes "HELLO") (hi.asArgs fl) with
    | (.ok r, c') => (.ok (some r), { c' with saidHello := true })
    | (.error e, c') => (.error e, c')

/-- C5: before the handshake every normal round trip fails with the
not-ready RuntimeError and sends nothing; a second hello is an idempotent
no-op; after a successful hello the same round trip call reaches the
normal _round_trip path. -/
theorem connection_handshake_gate (fl ρ : Type) (flStr : fl → String)
    (c : ConnState ρ) (cmd : List UInt8) (args : List (PyArg fl))
    (hi : Hello) :
    (c.saidHello = false →
      Connection.roundTrip flStr c cmd args = (.error .notReady, c)) ∧
    (c.saidHello = true →
      Connection.hello flStr c hi = (.ok none, c)) ∧
    (∀ r c', Connection.hello flStr c hi = (.ok (some r), c') →
      c'.saidHello = true ∧
      Connection.roundTrip flStr c' cmd args =
        Connection.rawRoundTrip flStr c' cmd args) := by
  refine ⟨?_, ?_, ?_⟩
  · intro h
    simp [Connection.roundTrip, h]
  · intro h
    simp [Connection.hello, h]
  · intro r c' h
    rw [Connection.hello] at h
    split at h
    · simp at h
    · split at h
      · rename_i heq
        injection h with h1 h2
        injection h1 with h1
        subst h2
        refine ⟨rfl, ?_⟩
        simp [Connection.roundTrip]
      · simp at h

/-- A fresh connection with one scripted reply, handshake not yet done. -/
def helloConnStart : ConnState Bool := ⟨false, [], [true]⟩

/-- The connection after a successful HELLO round trip: flag set, the
encoded HELLO command on the wire, reply script consumed. -/
def helloConnDone : ConnState Bool :=
  ⟨true, [strBytes "*2\r\n$5\r\nHELLO\r\n$1\r\n3\r\n"], []⟩

/-- Hello options with attrs defaults only. -/
def helloDefault : Hello := ⟨none, none, none⟩

/-- C5 witness: the gate statement applied to a concrete connection before
and after its handshake. -/
theorem connection_handshake_gate_witness :
    Connection.roundTrip (fun _ : Unit => "") helloConnStart
        (strBytes "PING") [] = (.error .notReady, helloConnStart) ∧
    Connection.hello (fun _ : Unit => "") helloConnDone helloDefault =
      (.ok none, helloConnDone) ∧
    (helloConnDone.saidHello = true ∧
     Connection.roundTrip (fun _ : Unit => "") helloConnDone
        (strBytes "PING") [] =
       Connection.rawRoundTrip (fun _ : Unit => "") helloConnDone
        (strBytes "PING") []) :=
  ⟨(connection_handshake_gate Unit Bool (fun _ => "") helloConnStart
      (strBytes "PING") [] helloDefault).1 rfl,
   (connection_handshake_gate Unit Bool (fun _ => "") helloConnDone
      (strBytes "PING") [] helloDefault).2.1 rfl,
   (connection_handshake_gate Unit Bool (fun _ => "") helloConnStart
      (strBytes "PING") [] helloDefault).2.2 true helloConnDone (by decide)⟩

/-! ## Scan iterator (scanner.py) -/

/-- The scanner state tags: init, started, scanned, stopped. -/
inductive ScanState
  | init
  | started
  | scanned
  | stopped
deriving DecidableEq

/-- Outcomes that end one call of the iterator besides a produced item:
StopAsyncIteration is the normal Python end-of-iteration signal, the two
illegal-state outcomes are the RuntimeError raises of scanner.py, the
assertion outcome is the cursor check on the scanned-to-stopped edge, and
scriptEnd models the scripted server running out of responses. The
protocolViolation constructor exists so the spec taxonomy can be stated;
the code never produces it. -/
inductive ScanErr
  | stopAsync
  | illegalStart
  | illegalNext
  | assertionFailed
  | scriptEnd
  | protocolViolation
deriving DecidableEq

/-- State of a Scanner (scanner.py): the state tag, the current cursor
bytes and the local stash, a Python list popped from its end. The item
type is abstract; SCAN yields byte strings, ZSCAN alternates score and
member byte strings. -/
structure Scanner (ι : Type) where
  state : ScanState
  cursor : List UInt8
  stash : List ι
deriving DecidableEq

variable {ι : Type}

/-- A fresh scanner: state init, cursor b zero, empty stash. -/
def Scanner.fresh (ι : Type) : Scanner ι := ⟨.init, strBytes "0", []⟩

/-- Python list.pop(): removes and returns the last element. -/
def pyPop (l : List ι) : Option (ι × List ι) :=
  match l.reverse with
  | [] => none
  | x :: rest => some (x, rest.reverse)

/-- Scanner.__aiter__ (scanner.py:27-32): only the init state may start
iteration, which moves the state to started; any other state raises the
illegal-state RuntimeError. -/
def Scanner.aiter (s : Scanner ι) : Except ScanErr (Scanner ι) :=
  if s.state = .init then .ok { s with state := .started }
  else .error .illegalStart

/-- The while-True loop around _next in Scanner.__anext__
(scanner.py:37-60 and 68-72), driven by a script of (cursor, items)
results for the _scan round trips. A stash pop serves the item; an empty
stash in state scanned moves to stopped, checks the cursor assertion and
signals StopAsyncIteration; otherwise one scripted fetch installs the new
cursor and stash, a zero cursor moves to scanned (and to stopped with a
StopAsyncIteration when the batch is empty), and the IndexError of popping
an empty fresh stash is caught by the loop, which retries. -/
def Scanner.anextLoop :
    List (List UInt8 × List ι) → Scanner ι →
      Except ScanErr ι × Scanner ι × List (List UInt8 × List ι)
  | script, s =>
    match pyPop s.stash with
    | some (x, rest) => (.ok x, { s with stash := rest }, script)
    | none =>
      if s.state = .scanned then
        (if s.cursor = strBytes "0" then .error .stopAsync
         else .error .assertionFailed,
         { s with state := .stopped }, script)
      else
        match script with
        | [] => (.error .scriptEnd, s, [])
        | (cur, items) :: rest =>
          if cur = strBytes "0" then
            if items.isEmpty then
              (.error .stopAsync,
               { s with cursor := cur, stash := items, state := .stopped },
               rest)
            else
              match pyPop items with
              | some (x, remain) =>
                (.ok x,
                 { s with cursor := cur, stash := remain, state := .scanned },
                 rest)
              | none =>
                Scanner.anextLoop rest
                  { s with cursor := cur, stash := items, state := .scanned }
          else
            match pyPop items with
            | some (x, remain) =>
              (.ok x, { s with cursor := cur, stash := remain }, rest)
            | none =>
              Scanner.anextLoop rest { s with cursor := cur, stash := items }

/-- Scanner.__anext__ entry (scanner.py:62-72): the stopped state signals
StopAsyncIteration immediately; a state that is neither started nor
scanned, that is init, raises the illegal-state RuntimeError; otherwise
the loop runs. -/
def Scanner.anext (s : Scanner ι) (script : List (List UInt8 × List ι)) :
    Except ScanErr ι × Scanner ι × List (List UInt8 × List ι) :=
  if s.state = .stopped then (.error .stopAsync, s, script)
  else if s.state = .init then (.error .illegalNext, s, script)
  else Scanner.anextLoop script s

/-- C6 counterexample: requesting the next item on a stopped scanner does
not fail with the illegal-state RuntimeError; it signals
StopAsyncIteration, the normal end of iteration. -/
theorem scanner_stopped_next_cex :
    (Scanner.anext (⟨.stopped, strBytes "0", []⟩ : Scanner Nat) []).1 =
      .error .stopAsync ∧
    (Scanner.anext (⟨.stopped, strBytes "0", []⟩ : Scanner Nat) []).1 ≠
      .error .illegalNext ∧
    (Scanner.anext (⟨.stopped, strBytes "0", []⟩ : Scanner Nat) []).1 ≠
      .error .illegalStart := by
  refine ⟨rfl, by decide, by decide⟩

/-- C6 (amended): restarting iteration from started, scanned or stopped
fails with the illegal-state RuntimeError, and so does requesting the next
item in state init; but requesting the next item when stopped signals
StopAsyncIteration, the normal end of iteration, not an illegal-state
error. -/
theorem scanner_illegal_states (ι : Type) (s : Scanner ι)
    (script : List (List UInt8 × List ι)) :
    (s.state ≠ .init → Scanner.aiter s = .error .illegalStart) ∧
    (s.state = .init → (Scanner.anext s script).1 = .error .illegalNext) ∧
    (s.state = .stopped → (Scanner.anext s script).1 = .error .stopAsync) := by
  refine ⟨?_, ?_, ?_⟩
  · intro h
    simp [Scanner.aiter, h]
  · intro h
    have hne : s.state ≠ .stopped := by
      rw [h]
      exact fun hc => ScanState.noConfusion hc
    simp [Scanner.anext, h, hne]
  · intro h
    simp [Scanner.anext, h]

/-- C6 witness: the amended statement applied to a started scanner for the
restart misuse, a fresh scanner for the next-in-init misuse, and a stopped
scanner for the end-of-iteration signal. -/
theorem scanner_illegal_states_witness :
    Scanner.aiter (⟨.started, strBytes "0", []⟩ : Scanner Nat) =
      .error .illegalStart ∧
    (Scanner.anext (Scanner.fresh Nat) []).1 = .error .illegalNext ∧
    (Scanner.anext (⟨.stopped, strBytes "0", [7]⟩ : Scanner Nat) []).1 =
      .error .stopAsync :=
  ⟨(scanner_illegal_states Nat ⟨.started, strBytes "0", []⟩ []).1 (by decide),
   (scanner_illegal_states Nat (Scanner.fresh Nat) []).2.1 rfl,
   (scanner_illegal_states Nat ⟨.stopped, strBytes "0", [7]⟩ []).2.2 rfl⟩

/-- PairedZSCAN.__anext__ (scanner.py:154-163): two underlying next calls
in order, the first taken as the score and the second as the member,
re-paired as (member, float(score)); any raise from either call, including
the StopAsyncIteration that ends the underlying iteration, propagates
as is. The float conversion is abstract in the score type. -/
def PairedZSCAN.anext {φ : Type} (toFloat : ι → φ) (s : Scanner ι)
    (script : List (List UInt8 × List ι)) :
    Except ScanErr (ι × φ) × Scanner ι × List (List UInt8 × List ι) :=
  match Scanner.anext s script with
  | (.ok score, s1, script1) =>
    match Scanner.anext s1 script1 with
    | (.ok member, s2, script2) => (.ok (member, toFloat score), s2, script2)
    | (.error e, s2, script2) => (.error e, s2, script2)
  | (.error e, s1, script1) => (.error e, s1, script1)

lemma anextLoop_no_violation (script : List (List UInt8 × List ι))
    (s : Scanner ι) :
    (Scanner.anextLoop script s).1 ≠ .error .protocolViolation := by
  induction script generalizing s with
  | nil =>
    rw [Scanner.anextLoop]
    rcases hpop : pyPop s.stash with - | ⟨x, rest⟩
    · simp only [hpop]
      split
      · split <;> exact fun hc => by simp at hc
      · exact fun hc => by simp at hc
    · simp only [hpop]
      exact fun hc => by simp at hc
  | cons head rest ih =>
    rw [Scanner.anextLoop]
    rcases hpop : pyPop s.stash with - | ⟨x, xs⟩
    · simp only [hpop]
      split
      · split <;> exact fun hc => by simp at hc
      · obtain ⟨cur, items⟩ := head
        split
        · split
          · exact fun hc => by simp at hc
          · rcases hpi : pyPop items with - | ⟨y, ys⟩
            · simp only [hpi]
              exact ih _
            · simp only [hpi]
              exact fun hc => by simp at hc
        · rcases hpi : pyPop items with - | ⟨y, ys⟩
          · simp only [hpi]
            exact ih _
          · simp only [hpi]
            exact fun hc => by simp at hc
    · simp only [hpop]
      exact fun hc => by simp at hc

lemma anext_no_violation (s : Scanner ι)
    (script : List (List UInt8 × List ι)) :
    (Scanner.anext s script).1 ≠ .error .protocolViolation := by
  rw [Scanner.anext]
  split
  · exact fun hc => by simp at hc
  · split
    · exact fun hc => by simp at hc
    · exact anextLoop_no_violation script s

/-- C7 counterexample: a paired sorted-set scan over an underlying
sequence with an odd raw item count, here the single item 5, does not
raise any protocol violation: the second underlying next call signals
StopAsyncIteration, which propagates and ends the iteration silently,
dropping the dangling item. -/
theorem paired_zscan_odd_cex :
    PairedZSCAN.anext (fun n : Nat => n)
        (⟨.started, strBytes "0", []⟩ : Scanner Nat) [(strBytes "0", [5])] =
      (.error .stopAsync, ⟨.stopped, strBytes "0", []⟩, []) ∧
    (PairedZSCAN.anext (fun n : Nat => n)
        (⟨.started, strBytes "0", []⟩ : Scanner Nat)
        [(strBytes "0", [5])]).1 ≠ .error .protocolViolation := by
  refine ⟨by decide, by decide⟩

/-- C7 (amended): the paired variant consumes two underlying items per
produced value, yielding the pair (member, float(score)); when the
underlying sequence ends between the two calls of a pair, which happens
exactly on an odd raw item count, the StopAsyncIteration of the second
call propagates and the iteration ends silently, dropping the dangling
item; no call of the paired variant ever produces a protocol violation. -/
theorem paired_zscan_behavior (ι φ : Type) (toFloat : ι → φ)
    (s : Scanner ι) (script : List (List UInt8 × List ι)) :
    (∀ score s1 t1 member s2 t2,
      Scanner.anext s script = (.ok score, s1, t1) →
      Scanner.anext s1 t1 = (.ok member, s2, t2) →
      PairedZSCAN.anext toFloat s script =
        (.ok (member, toFloat score), s2, t2)) ∧
    (∀ score s1 t1 e s2 t2,
      Scanner.anext s script = (.ok score, s1, t1) →
      Scanner.anext s1 t1 = (.error e, s2, t2) →
      PairedZSCAN.anext toFloat s script = (.error e, s2, t2)) ∧
    (∀ e s1 t1,
      Scanner.anext s script = (.error e, s1, t1) →
      PairedZSCAN.anext toFloat s script = (.error e, s1, t1)) ∧
    (PairedZSCAN.anext toFloat s script).1 ≠ .error .protocolViolation := by
  refine ⟨?_, ?_, ?_, ?_⟩
  · intro score s1 t1 member s2 t2 h1 h2
    rw [PairedZSCAN.anext, h1]
    dsimp only
    rw [h2]
  · intro score s1 t1 e s2 t2 h1 h2
    rw [PairedZSCAN.anext, h1]
    dsimp only
    rw [h2]
  · intro e s1 t1 h1
    rw [PairedZSCAN.anext, h1]
  · rw [PairedZSCAN.anext]
    rcases h1 : Scanner.anext s script with ⟨r1, s1, t1⟩
    cases r1 with
    | ok score =>
      dsimp only
      rcases h2 : Scanner.anext s1 t1 with ⟨r2, s2, t2⟩
      cases r2 with
      | ok member =>
        dsimp only
        exact fun hc => by simp at hc
      | error e =>
        dsimp only
        have hnv := anext_no_violation s1 t1
        rw [h2] at hnv
        intro hc
        exact hnv (by simpa using hc)
    | error e =>
      dsimp only
      have hnv := anext_no_violation s script
      rw [h1] at hnv
      intro hc
      exact hnv (by simpa using hc)

/-- C7 witness: the pairing statement applied to a two-item batch, giving
the re-paired value, and the propagation statement applied to a one-item
batch, giving the silent end of iteration. -/
theorem paired_zscan_behavior_witness :
    PairedZSCAN.anext (fun n : Nat => n)
        (⟨.started, strBytes "0", []⟩ : Scanner Nat)
        [(strBytes "0", [1, 2])] =
      (.ok (1, 2), ⟨.scanned, strBytes "0", []⟩, []) ∧
    PairedZSCAN.anext (fun n : Nat => n)
        (⟨.started, strBytes "0", []⟩ : Scanner Nat) [(strBytes "0", [5])] =
      (.error .stopAsync, ⟨.stopped, strBytes "0", []⟩, []) :=
  ⟨(paired_zscan_behavior Nat Nat (fun n => n) ⟨.started, strBytes "0", []⟩
      [(strBytes "0", [1, 2])]).1 2 ⟨.scanned, strBytes "0", [1]⟩ [] 1
      ⟨.scanned, strBytes "0", []⟩ [] (by decide) (by decide),
   (paired_zscan_behavior Nat Nat (fun n => n) ⟨.started, strBytes "0", []⟩
      [(strBytes "0", [5])]).2.1 5 ⟨.scanned, strBytes "0", []⟩ []
      .stopAsync ⟨.stopped, strBytes "0", []⟩ [] (by decide) (by decide)⟩

/-! ## Transactional session (api/redis.py, class Transaction) -/

/-- The RuntimeError raised at scope exit for an unmatched session. -/
inductive TxErr
  | unmatchedTransaction
deriving DecidableEq

/-- State of a Transaction session: the borrowed connection and the
_tx_count balance, incremented by multi and decremented by exec and
discard. -/
structure TxState (ρ : Type) where
  conn : ConnState ρ
  txCount : Int
deriving DecidableEq

/-- Transaction.multi (api/redis.py:94-96): bump the balance, then round
trip MULTI through the borrowed connection; the balance is bumped even if
the round trip raises. -/
def Transaction.multi (flStr : fl → String) (t : TxState ρ) :
    Except ConnErr ρ × TxState ρ :=
  let res := Connection.roundTrip flStr t.conn (strBytes "MULTI")
    ([] : List (PyArg fl))
  (res.1, { conn := res.2, txCount := t.txCount + 1 })

/-- Transaction.exec (api/redis.py:102-104): drop the balance, then round
trip EXEC. -/
def Transaction.exec (flStr : fl → String) (t : TxState ρ) :
    Except ConnErr ρ × TxState ρ :=
  let res := Connection.roundTrip flStr t.conn (strBytes "EXEC")
    ([] : List (PyArg fl))
  (res.1, { conn := res.2, txCount := t.txCount - 1 })

/-- Transaction.discard (api/redis.py:98-100): drop the balance, then
round trip DISCARD. -/
def Transaction.discard (flStr : fl → String) (t : TxState ρ) :
    Except ConnErr ρ × TxState ρ :=
  let res := Connection.roundTrip flStr t.conn (strBytes "DISCARD")
    ([] : List (PyArg fl))
  (res.1, { conn := res.2, txCount := t.txCount - 1 })

/-- One operation issued inside a session scope: a multi marker, one of
the two terminals, or any other queued command, which goes through the
connection without touching the balance. -/
inductive TxOp (fl : Type)
  | multi
  | exec
  | discard
  | cmd (c : List UInt8) (args : List (PyArg fl))

/-- Run a session body: each operation threads the borrowed connection and
the balance; replies and errors go to the caller while the session
continues. -/
def Transaction.run (flStr : fl → String) (t : TxState ρ) :
    List (TxOp fl) → TxState ρ
  | [] => t
  | op :: ops =>
    let t' :=
      match op with
      | .multi => (Transaction.multi flStr t).2
      | .exec => (Transaction.exec flStr t).2
      | .discard => (Transaction.discard flStr t).2
      | .cmd c args =>
        { t with conn := (Connection.roundTrip flStr t.conn c args).2 }
    Transaction.run flStr t' ops

/-- Number of multi markers in a session body. -/
def TxOp.countMulti (ops : List (TxOp fl)) : Nat :=
  ops.countP (fun op => match op with | .multi => true | _ => false)

/-- Number of exec and discard terminals in a session body. -/
def TxOp.countTerm (ops : List (TxOp fl)) : Nat :=
  ops.countP
    (fun op => match op with | .exec => true | .discard => true | _ => false)

/-- Transaction.__exit__ (api/redis.py:109-115): a nonzero balance at
scope exit raises the unmatched-transaction RuntimeError; a zero balance
exits silently, clearing the borrowed connection. -/
def Transaction.exit (t : TxState ρ) : Except TxErr Unit :=
  if t.txCount ≠ 0 then .error .unmatchedTransaction else .ok ()

lemma transaction_run_txCount (flStr : fl → String) (t : TxState ρ)
    (ops : List (TxOp fl)) :
    (Transaction.run flStr t ops).txCount =
      t.txCount + TxOp.countMulti ops - TxOp.countTerm ops := by
  induction ops generalizing t with
  | nil => simp [Transaction.run, TxOp.countMulti, TxOp.countTerm]
  | cons op ops ih =>
    simp only [Transaction.run]
    cases op with
    | multi =>
      rw [ih]
      simp [Transaction.multi, TxOp.countMulti, TxOp.countTerm,
        List.countP_cons]
      omega
    | exec =>
      rw [ih]
      simp [Transaction.exec, TxOp.countMulti, TxOp.countTerm,
        List.countP_cons]
      omega
    | discard =>
      rw [ih]
      simp [Transaction.discard, TxOp.countMulti, TxOp.countTerm,
        List.countP_cons]
      omega
    | cmd c args =>
      rw [ih]
      simp [TxOp.countMulti, TxOp.countTerm, List.countP_cons]

/-- C8: a session run from a fresh balance raises the
unmatched-transaction RuntimeError at scope exit exactly when the number
of multi markers differs from the number of exec and discard terminals,
and exits silently when they match. -/
theorem transaction_unmatched_exit (fl ρ : Type) (flStr : fl → String)
    (c : ConnState ρ) (ops : List (TxOp fl)) :
    Transaction.exit (Transaction.run flStr ⟨c, 0⟩ ops) =
      (if TxOp.countMulti ops = TxOp.countTerm ops then .ok ()
       else .error .unmatchedTransaction) := by
  rw [Transaction.exit, transaction_run_txCount]
  dsimp only
  by_cases h : TxOp.countMulti ops = TxOp.countTerm ops
  · rw [if_pos h, if_neg]
    omega
  · rw [if_neg h, if_pos]
    omega
